import Mathlib

/-!
Verification development for the AI_Health realtime voice session client.

The definitions below are a shallow embedding of the orchestration logic in
`src/client/pages/chat.jsx` (the second, current component in that file) and of
the server routes in the Fastify entry file (`src/unnamed/part_000`).
Machine-level concerns (React rendering, WebRTC transport) are abstracted; the
control flow, guard conditions, string constants and data shapes are translated
directly from the source.
-/

namespace AIHealth

/-! ### Event protocol engine (chat.jsx, choreography useEffect, lines 487-634)

Inbound data-channel messages are parsed JSON objects with a `type` field and,
for `response.done`, a `response.output` array of items.  The component keeps
the event log newest-first (`setEvents` prepends), a `functionAdded` flag, and
reacts to every change of `events` by running the effect body. -/

/-- One entry of `response.output` in a `response.done` event. -/
structure OutputItem where
  type : String
  name : String
  arguments : String
deriving DecidableEq

/-- One inbound data-channel event: a `type` tag and, when present, the
`response.output` list.  `output = none` models a missing or falsy
`response.output` field. -/
structure REvent where
  type : String
  output : Option (List OutputItem)
deriving DecidableEq

/-- Observable state of the choreography handler: the newest-first event log,
the `functionAdded` flag, the number of tool-registration messages sent on the
live data channel, the ordered log of `localStorage.setItem` calls
(key, arguments), and the ordered log of scheduled delayed follow-up sends
(tagged by which instruction each timeout will send). -/
structure EngineState where
  events : List REvent
  functionAdded : Bool
  regSends : Nat
  writes : List (String × String)
  followUps : List String
deriving DecidableEq

def initEngine : EngineState := ⟨[], false, 0, [], []⟩

/-- Branch of the output-forEach body for `review_current_weekly_plan`:
cache under `lastReviewPlan` and schedule the adjust-plan follow-up. -/
def processReview (st : EngineState) (o : OutputItem) : EngineState :=
  if o.type = "function_call" ∧ o.name = "review_current_weekly_plan" then
    { st with writes := st.writes ++ [("lastReviewPlan", o.arguments)],
              followUps := st.followUps ++ ["adjust_plan_instruction"] }
  else st

/-- Branch for `adjust_exercise_plan`: cache under `lastExerciseAdjustment`
and schedule the final-confirmation follow-up. -/
def processAdjust (st : EngineState) (o : OutputItem) : EngineState :=
  if o.type = "function_call" ∧ o.name = "adjust_exercise_plan" then
    { st with writes := st.writes ++ [("lastExerciseAdjustment", o.arguments)],
              followUps := st.followUps ++ ["confirm_plan_instruction"] }
  else st

/-- Branch for `confirm_final_plan`: cache under `lastPlanConfirmation` and
schedule the farewell follow-up (which also arms the silence monitor). -/
def processConfirm (st : EngineState) (o : OutputItem) : EngineState :=
  if o.type = "function_call" ∧ o.name = "confirm_final_plan" then
    { st with writes := st.writes ++ [("lastPlanConfirmation", o.arguments)],
              followUps := st.followUps ++ ["farewell_instruction"] }
  else st

/-- The body of `mostRecentEvent.response.output.forEach(...)`: the three
independent if-blocks of chat.jsx lines 501-632, in source order. -/
def processOutput (st : EngineState) (o : OutputItem) : EngineState :=
  processConfirm (processAdjust (processReview st o) o) o

/-- The registration block (lines 490-494): if `functionAdded` is false and
the OLDEST logged event (`events[events.length - 1]`) has type
`session.created`, send the tool-registration message on the data channel and
set the flag. -/
def registration (st : EngineState) (firstEvent : REvent) : EngineState :=
  if st.functionAdded = false ∧ firstEvent.type = "session.created" then
    { st with regSends := st.regSends + 1, functionAdded := true }
  else st

/-- The choreography block (lines 496-633): if the NEWEST event (`events[0]`)
has type `response.done` and a present `response.output`, run the forEach over
its items. -/
def runOutputs (mostRecent : REvent) (st : EngineState) : EngineState :=
  match mostRecent.output with
  | some outs =>
      if mostRecent.type = "response.done" then outs.foldl processOutput st
      else st
  | none => st

/-- The effect body for a nonempty event log: `mostRecent` is `events[0]`,
`older` the rest, so `events[events.length - 1]` is `older.getLastD mostRecent`;
the registration block runs first, then the output-scanning block. -/
def runChoreographyCore (st : EngineState) (mostRecent : REvent)
    (older : List REvent) : EngineState :=
  runOutputs mostRecent (registration st (older.getLastD mostRecent))

/-- The choreography useEffect: returns immediately on an empty log
(line 488), otherwise runs the effect body. -/
def runChoreography (st : EngineState) : EngineState :=
  match st.events with
  | [] => st
  | mostRecent :: older => runChoreographyCore st mostRecent older

/-- Delivery of one data-channel message: the message listener prepends the
parsed event to the log (line 467), after which the effect runs. -/
def deliver (st : EngineState) (e : REvent) : EngineState :=
  runChoreography { st with events := e :: st.events }

/-- A whole session: deliver the inbound events in arrival order, starting
from the initial component state. -/
def runSession (trace : List REvent) : EngineState :=
  trace.foldl deliver initEngine

/-! ### Silence-triggered terminator (chat.jsx, checkAudioLevel, lines 600-626)

The monitor keeps a `silenceStart` timestamp (`none` when cleared).  Each
animation frame it computes the average of the frequency-bin bytes and
compares it with the threshold; once a sample arrives strictly more than
`SILENCE_DURATION` milliseconds after the recorded start while still below
threshold, it closes the audio context, stops the session, and does not
reschedule.  Average energies are modelled as rationals since the source
divides a byte sum by the bin count. -/

def SILENCE_THRESHOLD : ℚ := 10

def SILENCE_DURATION : Nat := 2000

/-- One sampled frame: the `Date.now()` timestamp and the computed average
frequency-domain energy. -/
structure AudioSample where
  t : Nat
  avg : ℚ
deriving DecidableEq

/-- One iteration of `checkAudioLevel`: returns (fired, new silenceStart).
`fired = true` means `onSilenceDetected` ran (audio context closed, session
stopped) and no further frame is scheduled. -/
def checkAudioLevel (silenceStart : Option Nat) (s : AudioSample) :
    Bool × Option Nat :=
  if s.avg < SILENCE_THRESHOLD then
    match silenceStart with
    | none => (false, some s.t)
    | some t0 =>
        if s.t - t0 > SILENCE_DURATION then (true, some t0)
        else (false, some t0)
  else (false, none)

/-- Run the monitor over a trace of samples.  Returns the number of times the
callback fired together with the samples left unprocessed: on firing, the
monitor does not reschedule, so the remaining samples are never examined. -/
def runMonitor (silenceStart : Option Nat) :
    List AudioSample → Nat × List AudioSample
  | [] => (0, [])
  | s :: rest =>
      match checkAudioLevel silenceStart s with
      | (true, _) => (1, rest)
      | (false, st2) => runMonitor st2 rest

/-! ### Session lifecycle (chat.jsx, startSession lines 360-432 and
stopSession lines 434-445) -/

inductive ConnStatus where
  | disconnected
  | connecting
  | connected
deriving DecidableEq

/-- The environment `startSession` runs against: whether the `/token` fetch
returned ok, the `data.client_secret?.value` field when present, and whether
`getUserMedia` resolves (microphone permission granted). -/
structure StartEnv where
  tokenOk : Bool
  clientSecret : Option String
  micGranted : Bool
deriving DecidableEq

/-- Observable outcome of one `startSession` call: final connection status,
the `alert` message shown in the catch block when an error was thrown, whether
`new RTCPeerConnection()` executed, the ordered log of network requests made,
whether microphone access was requested, and whether the speaking-time
interval was started. -/
structure StartResult where
  status : ConnStatus
  alertMsg : Option String
  pcCreated : Bool
  networkCalls : List String
  micRequested : Bool
  intervalStarted : Bool
deriving DecidableEq

/-- Shallow embedding of `startSession`.  The source sets CONNECTING, fetches
`/token` (first network call), throws on `!tokenResponse.ok`, throws on a
missing `client_secret.value`, then requests the microphone, and only then
constructs the peer connection and performs the SDP offer POST (second network
call).  Any thrown error is caught: status reverts to DISCONNECTED and the
message is surfaced via `alert`.  On the success path the status stays
CONNECTING (CONNECTED is set later by the registration handshake) and the
speaking-time interval starts. -/
def startSession (env : StartEnv) : StartResult :=
  if env.tokenOk = false then
    ⟨.disconnected, some "Failed to get token", false, ["GET /token"], false, false⟩
  else
    match env.clientSecret with
    | none =>
        ⟨.disconnected, some "Invalid token response", false, ["GET /token"],
          false, false⟩
    | some _ =>
        if env.micGranted = false then
          ⟨.disconnected, some "Microphone access denied", false, ["GET /token"],
            true, false⟩
        else
          ⟨.connecting, none, true,
            ["GET /token", "POST api.openai.com/v1/realtime"], true, true⟩

/-- Live per-session resources: the `dataChannel` React state (channel ids as
naturals), the set of channels on which `close()` has been called, the
`peerConnection` ref, the connection status, and whether the speaking-time
interval timer is still registered. -/
structure SessionState where
  dataChannel : Option Nat
  closedChannels : List Nat
  peerConnection : Option Nat
  status : ConnStatus
  intervalActive : Bool
deriving DecidableEq

/-- Shallow embedding of `stopSession`: close the data channel if present,
close the peer connection if present, set status DISCONNECTED, null both
references.  The source never touches `intervalRef` here — the interval is
cleared only by the unmount cleanup effect (lines 447-454). -/
def stopSession (s : SessionState) : SessionState :=
  { s with
    dataChannel := none,
    peerConnection := none,
    status := .disconnected,
    closedChannels :=
      match s.dataChannel with
      | some id => s.closedChannels ++ [id]
      | none => s.closedChannels }

/-- The value of the `dataChannel` variable captured by the choreography
effect closure at the moment a delayed follow-up send is scheduled with
`setTimeout`.  React state values are per-render, so a later
`setDataChannel(null)` does not change what an already-scheduled closure
sees. -/
def timeoutCapture (s : SessionState) : Option Nat := s.dataChannel

inductive SendOutcome where
  | noSend
  | sent
  | sentOnClosed
deriving DecidableEq

/-- Firing of a pending `setTimeout(() => dataChannel?.send(...), 500)`:
the optional-chaining guard inspects the CAPTURED channel value; if that is
non-null, `send` is invoked on it — on a channel that `stopSession` has
already closed this raises InvalidStateError (modelled as `sentOnClosed`). -/
def fireDelayedSend (captured : Option Nat) (closedChannels : List Nat) :
    SendOutcome :=
  match captured with
  | none => .noSend
  | some id => if id ∈ closedChannels then .sentOnClosed else .sent

/-- Concrete pre-stop session used to exercise the pending-send scenario. -/
def preStopState : SessionState := ⟨some 7, [], some 7, .connected, true⟩

/-! ### Tool result cache (chat.jsx, localStorage writes at lines 506-511,
546-550, 574-578)

`localStorage` is a flat string-keyed store; each cached value is built as an
object holding `new Date().toISOString()` taken at the write together with the
step payload, then written with `setItem`, which overwrites any previous value
for the key. -/

/-- The durable store: each key maps to at most one (timestamp, payload)
value. -/
def CacheStore : Type := String → Option (Nat × String)

def emptyStore : CacheStore := fun _ => none

/-- `localStorage.setItem`: overwrite the value at one key. -/
def localStorageSetItem (store : CacheStore) (k : String) (v : Nat × String) :
    CacheStore :=
  fun k2 => if k2 = k then some v else store k2

/-- Record a step result: stamp the payload with the current time (taken at
the write call) and store it under the step key. -/
def recordResult (store : CacheStore) (k : String) (payload : String)
    (now : Nat) : CacheStore :=
  localStorageSetItem store k (now, payload)

/-- `localStorage.getItem`: read the last value written under a key. -/
def readLast (store : CacheStore) (k : String) : Option (Nat × String) :=
  store k

/-! ### Server routes (Fastify entry file, src/unnamed/part_000) -/

/-- The upstream `POST /v1/realtime/sessions` outcome as seen by the `/token`
handler: an HTTP status and a body. -/
structure UpstreamResponse where
  status : Nat
  body : String
deriving DecidableEq

/-- Shallow embedding of `server.get("/token")` (lines 89-124): whatever
status the upstream fetch resolved with, the handler wraps the upstream body
in a fresh `Response` with status 200; only a thrown error escapes the
try-block (and is rethrown to the framework). -/
def tokenRoute (upstream : Except String UpstreamResponse) :
    Except String (Nat × String) :=
  match upstream with
  | .ok r => .ok (200, r.body)
  | .error e => .error e

/-- The process environment the server reads. -/
structure ServerEnv where
  OPENAI_API_KEY : String
  NODE_ENV : String
  PORT : String
deriving DecidableEq

/-- An inbound HTTP request; the only attribute relevant here is whatever
credential the caller may or may not have attached, since the handler reads
none of it. -/
structure HttpRequest where
  authHeader : Option String
deriving DecidableEq

/-- The JSON body returned by `server.get("/api-env")`. -/
structure ApiEnvBody where
  OPENAI_API_KEY : String
  NODE_ENV : String
  PORT : String
deriving DecidableEq

/-- Shallow embedding of `server.get("/api-env")` (lines 80-86): return the
three environment values to the requester, unconditionally. -/
def apiEnvRoute (req : HttpRequest) (env : ServerEnv) : ApiEnvBody :=
  ⟨env.OPENAI_API_KEY, env.NODE_ENV, env.PORT⟩

/-! ### Helper lemmas about the choreography engine -/

theorem processReview_pres (st : EngineState) (o : OutputItem) :
    (processReview st o).events = st.events ∧
    (processReview st o).functionAdded = st.functionAdded ∧
    (processReview st o).regSends = st.regSends := by
  unfold processReview; split <;> simp

theorem processAdjust_pres (st : EngineState) (o : OutputItem) :
    (processAdjust st o).events = st.events ∧
    (processAdjust st o).functionAdded = st.functionAdded ∧
    (processAdjust st o).regSends = st.regSends := by
  unfold processAdjust; split <;> simp

theorem processConfirm_pres (st : EngineState) (o : OutputItem) :
    (processConfirm st o).events = st.events ∧
    (processConfirm st o).functionAdded = st.functionAdded ∧
    (processConfirm st o).regSends = st.regSends := by
  unfold processConfirm; split <;> simp

theorem processOutput_pres (st : EngineState) (o : OutputItem) :
    (processOutput st o).events = st.events ∧
    (processOutput st o).functionAdded = st.functionAdded ∧
    (processOutput st o).regSends = st.regSends := by
  unfold processOutput
  obtain ⟨a1, a2, a3⟩ := processReview_pres st o
  obtain ⟨b1, b2, b3⟩ := processAdjust_pres (processReview st o) o
  obtain ⟨c1, c2, c3⟩ := processConfirm_pres (processAdjust (processReview st o) o) o
  exact ⟨c1.trans (b1.trans a1), c2.trans (b2.trans a2), c3.trans (b3.trans a3)⟩

theorem foldlProcessOutput_pres (outs : List OutputItem) (st : EngineState) :
    ((outs.foldl processOutput st).events = st.events) ∧
    ((outs.foldl processOutput st).functionAdded = st.functionAdded) ∧
    ((outs.foldl processOutput st).regSends = st.regSends) := by
  induction outs generalizing st with
  | nil => simp
  | cons o os ih =>
      simp only [List.foldl_cons]
      obtain ⟨h1, h2, h3⟩ := processOutput_pres st o
      obtain ⟨g1, g2, g3⟩ := ih (processOutput st o)
      exact ⟨g1.trans h1, g2.trans h2, g3.trans h3⟩

theorem runOutputs_pres (e : REvent) (st : EngineState) :
    ((runOutputs e st).events = st.events) ∧
    ((runOutputs e st).functionAdded = st.functionAdded) ∧
    ((runOutputs e st).regSends = st.regSends) := by
  unfold runOutputs
  cases e.output with
  | none => simp
  | some outs =>
      by_cases hd : e.type = "response.done"
      · simp only [if_pos hd]; exact foldlProcessOutput_pres outs st
      · simp [hd]

theorem registration_char (st : EngineState) (f : REvent) :
    ((registration st f).events = st.events) ∧
    ((registration st f).regSends =
      (if st.functionAdded = false ∧ f.type = "session.created"
       then st.regSends + 1 else st.regSends)) ∧
    ((registration st f).functionAdded =
      (if st.functionAdded = false ∧ f.type = "session.created"
       then true else st.functionAdded)) := by
  unfold registration; split <;> simp_all

theorem deliver_eq (st : EngineState) (e : REvent) :
    deliver st e =
      runChoreographyCore { st with events := e :: st.events } e st.events := rfl

theorem deliver_events (st : EngineState) (e : REvent) :
    (deliver st e).events = e :: st.events := by
  rw [deliver_eq]
  unfold runChoreographyCore
  rw [(runOutputs_pres _ _).1, (registration_char _ _).1]

theorem deliver_regSends (st : EngineState) (e : REvent) :
    (deliver st e).regSends =
      (if st.functionAdded = false ∧
          ((st.events.getLastD e).type = "session.created")
       then st.regSends + 1 else st.regSends) := by
  rw [deliver_eq]
  unfold runChoreographyCore
  rw [(runOutputs_pres _ _).2.2, (registration_char _ _).2.1]

theorem deliver_functionAdded (st : EngineState) (e : REvent) :
    (deliver st e).functionAdded =
      (if st.functionAdded = false ∧
          ((st.events.getLastD e).type = "session.created")
       then true else st.functionAdded) := by
  rw [deliver_eq]
  unfold runChoreographyCore
  rw [(runOutputs_pres _ _).2.1, (registration_char _ _).2.2]

theorem foldl_deliver_fATrue (es : List REvent) (st : EngineState)
    (h : st.functionAdded = true) :
    ((es.foldl deliver st).regSends = st.regSends) ∧
    ((es.foldl deliver st).functionAdded = true) := by
  induction es generalizing st with
  | nil => exact ⟨rfl, h⟩
  | cons e es ih =>
      simp only [List.foldl_cons]
      have hr : (deliver st e).regSends = st.regSends := by
        rw [deliver_regSends, if_neg]; simp [h]
      have hf : (deliver st e).functionAdded = true := by
        rw [deliver_functionAdded, if_neg]
        · exact h
        · simp [h]
      obtain ⟨g1, g2⟩ := ih (deliver st e) hf
      exact ⟨g1.trans hr, g2⟩

theorem foldl_deliver_lastNe (es : List REvent) (st : EngineState)
    (e0 : REvent) (l : List REvent) (hev : st.events = l ++ [e0])
    (hne : e0.type ≠ "session.created") :
    (es.foldl deliver st).regSends = st.regSends := by
  induction es generalizing st l with
  | nil => rfl
  | cons e es ih =>
      simp only [List.foldl_cons]
      have hlast : st.events.getLastD e = e0 := by
        rw [hev]; exact List.getLastD_concat _ _ _
      have hr : (deliver st e).regSends = st.regSends := by
        rw [deliver_regSends, hlast, if_neg]; simp [hne]
      have hev2 : (deliver st e).events = (e :: l) ++ [e0] := by
        rw [deliver_events, hev]; rfl
      exact (ih (deliver st e) (e :: l) hev2).trans hr

/-! ### Helper lemmas about the silence monitor -/

theorem runMonitor_le_one (st : Option Nat) (xs : List AudioSample) :
    (runMonitor st xs).1 ≤ 1 := by
  induction xs generalizing st with
  | nil => simp [runMonitor]
  | cons s rest ih =>
      simp only [runMonitor]
      rcases hc : checkAudioLevel st s with ⟨fired, st2⟩
      cases fired with
      | true => simp
      | false => exact ih st2

theorem runMonitor_fire_stops (st : Option Nat) (s : AudioSample)
    (rest : List AudioSample) (h : (checkAudioLevel st s).1 = true) :
    runMonitor st (s :: rest) = (1, rest) := by
  simp only [runMonitor]
  rcases hc : checkAudioLevel st s with ⟨fired, st2⟩
  rw [hc] at h
  simp at h
  subst h
  rfl

theorem runMonitor_allBelow (xs : List AudioSample) (t0 : Nat)
    (hb : ∀ s ∈ xs, s.avg < SILENCE_THRESHOLD)
    (hw : ∃ s ∈ xs, s.t - t0 > SILENCE_DURATION) :
    (runMonitor (some t0) xs).1 = 1 := by
  induction xs with
  | nil => simp at hw
  | cons s rest ih =>
      have hs : s.avg < SILENCE_THRESHOLD := hb s (List.mem_cons_self s rest)
      by_cases hf : s.t - t0 > SILENCE_DURATION
      · simp only [runMonitor, checkAudioLevel, if_pos hs, if_pos hf]
      · simp only [runMonitor, checkAudioLevel, if_pos hs, if_neg hf]
        apply ih (fun x hx => hb x (List.mem_cons_of_mem s hx))
        obtain ⟨w, hw1, hw2⟩ := hw
        rcases List.mem_cons.mp hw1 with heq | hmem
        · exact absurd (heq ▸ hw2) hf
        · exact ⟨w, hmem, hw2⟩

theorem runMonitor_clear (st : Option Nat) (s : AudioSample)
    (rest : List AudioSample) (h : ¬ s.avg < SILENCE_THRESHOLD) :
    runMonitor st (s :: rest) = runMonitor none rest := by
  simp only [runMonitor, checkAudioLevel, if_neg h]

theorem runMonitor_shortRun (mid : List AudioSample) (t0 : Nat)
    (h : ∀ s ∈ mid, s.avg < SILENCE_THRESHOLD ∧ s.t - t0 ≤ SILENCE_DURATION)
    (ys : List AudioSample) :
    runMonitor (some t0) (mid ++ ys) = runMonitor (some t0) ys := by
  induction mid with
  | nil => rfl
  | cons s mid ih =>
      obtain ⟨hb, ht⟩ := h s (List.mem_cons_self s mid)
      have hnf : ¬ s.t - t0 > SILENCE_DURATION := not_lt.mpr ht
      simp only [List.cons_append, runMonitor, checkAudioLevel, if_pos hb,
        if_neg hnf]
      exact ih (fun x hx => h x (List.mem_cons_of_mem s hx))

/-! ### Claim theorems -/

/-- C1 (code behavior at the failing input): delivering `session.created`,
then a `response.done` carrying `review_current_weekly_plan`, then one
carrying `adjust_exercise_plan`, then a DUPLICATE `response.done` carrying
`review_current_weekly_plan` again, makes the handler write the
`lastReviewPlan` cache key a second time and schedule a second adjust-plan
follow-up send: the choreography has no guard against re-handling an
already-passed step. -/
theorem duplicateReview_retriggers :
    (runSession [⟨"session.created", none⟩,
      ⟨"response.done", some [⟨"function_call", "review_current_weekly_plan", "a1"⟩]⟩,
      ⟨"response.done", some [⟨"function_call", "adjust_exercise_plan", "a2"⟩]⟩,
      ⟨"response.done", some [⟨"function_call", "review_current_weekly_plan", "a1"⟩]⟩]).writes
      = [("lastReviewPlan", "a1"), ("lastExerciseAdjustment", "a2"),
         ("lastReviewPlan", "a1")] ∧
    (runSession [⟨"session.created", none⟩,
      ⟨"response.done", some [⟨"function_call", "review_current_weekly_plan", "a1"⟩]⟩,
      ⟨"response.done", some [⟨"function_call", "adjust_exercise_plan", "a2"⟩]⟩,
      ⟨"response.done", some [⟨"function_call", "review_current_weekly_plan", "a1"⟩]⟩]).followUps
      = ["adjust_plan_instruction", "confirm_plan_instruction",
         "adjust_plan_instruction"] := by
  exact ⟨rfl, rfl⟩

/-- C2 (counterexample to the claim as stated): a trace whose samples stay
below the threshold continuously for exactly 2000ms — at least 2000ms, as the
claim requires — and only rise afterwards never fires the callback, because
the source fires only when strictly more than `SILENCE_DURATION` milliseconds
have elapsed at a still-below sample. -/
theorem silenceExactly2000_doesNotFire :
    (∀ s ∈ [(⟨0, 5⟩ : AudioSample), ⟨2000, 5⟩], s.avg < SILENCE_THRESHOLD) ∧
    (2000 : Nat) - 0 ≥ SILENCE_DURATION ∧
    runMonitor none [⟨0, 5⟩, ⟨2000, 5⟩, ⟨2100, 50⟩] = (0, []) := by decide

/-- C2 (amended): the callback fires at most once over any trace; on the
firing sample the remaining samples are left unprocessed (sampling stops);
if the trace stays below threshold from a silence-start sample onward and some
later sample arrives strictly more than 2000ms after it, the callback fires
exactly once; and if the energy rises above threshold while at most 2000ms
have elapsed since the silence start (for example after 1900ms), the callback
does not fire during the dip, the silence-start timestamp is cleared, and the
monitor continues exactly as if freshly started. -/
theorem silenceMonitor_correct :
    (∀ (st : Option Nat) (xs : List AudioSample), (runMonitor st xs).1 ≤ 1) ∧
    (∀ (st : Option Nat) (s : AudioSample) (rest : List AudioSample),
      (checkAudioLevel st s).1 = true → runMonitor st (s :: rest) = (1, rest)) ∧
    (∀ (s0 : AudioSample) (rest : List AudioSample),
      s0.avg < SILENCE_THRESHOLD →
      (∀ s ∈ rest, s.avg < SILENCE_THRESHOLD) →
      (∃ s ∈ rest, s.t - s0.t > SILENCE_DURATION) →
      (runMonitor none (s0 :: rest)).1 = 1) ∧
    (∀ (s0 : AudioSample) (mid : List AudioSample) (s2 : AudioSample)
        (rest : List AudioSample),
      s0.avg < SILENCE_THRESHOLD →
      (∀ s ∈ mid, s.avg < SILENCE_THRESHOLD ∧ s.t - s0.t ≤ SILENCE_DURATION) →
      ¬ s2.avg < SILENCE_THRESHOLD →
      runMonitor none (s0 :: (mid ++ s2 :: rest)) = runMonitor none rest) := by
  refine ⟨runMonitor_le_one, runMonitor_fire_stops, ?_, ?_⟩
  · intro s0 rest h0 hb hw
    have e1 : runMonitor none (s0 :: rest) = runMonitor (some s0.t) rest := by
      simp only [runMonitor, checkAudioLevel, if_pos h0]
    rw [e1]
    exact runMonitor_allBelow rest s0.t hb hw
  · intro s0 mid s2 rest h0 hmid h2
    have e1 : runMonitor none (s0 :: (mid ++ s2 :: rest))
        = runMonitor (some s0.t) (mid ++ s2 :: rest) := by
      simp only [runMonitor, checkAudioLevel, if_pos h0]
    rw [e1, runMonitor_shortRun mid s0.t hmid (s2 :: rest),
      runMonitor_clear (some s0.t) s2 rest h2]

/-- C2 (witness): the amended theorem applied at concrete traces — silence
from t=0 with a sample at t=2001 fires exactly once, and a 1900ms dip followed
by a rise behaves like a fresh monitor on the remaining samples. -/
theorem silenceMonitor_correct_witness :
    (runMonitor none [⟨0, 5⟩, ⟨2001, 5⟩]).1 = 1 ∧
    runMonitor none [⟨0, 5⟩, ⟨1900, 5⟩, ⟨1950, 50⟩, ⟨2500, 3⟩]
      = runMonitor none [⟨2500, 3⟩] := by
  constructor
  · exact silenceMonitor_correct.2.2.1 ⟨0, 5⟩ [⟨2001, 5⟩] (by decide)
      (by decide) (by decide)
  · exact silenceMonitor_correct.2.2.2 ⟨0, 5⟩ [⟨1900, 5⟩] ⟨1950, 50⟩
      [⟨2500, 3⟩] (by decide) (by decide) (by decide)

/-- C3 (counterexample to the claim as stated): when an event of another type
arrives first and `session.created` second, a `session.created` HAS been
received and registration has not yet occurred, yet the registration message
is never sent, because the handler only tests the OLDEST logged event. -/
theorem lateSessionCreated_neverRegisters :
    (⟨"session.created", none⟩ : REvent) ∈
      [(⟨"error", none⟩ : REvent), ⟨"session.created", none⟩] ∧
    (runSession [⟨"error", none⟩, ⟨"session.created", none⟩]).regSends = 0 := by
  exact ⟨by decide, rfl⟩

/-- C3 (amended): over every inbound event sequence the tool-registration
message is sent at most once, and it is sent (exactly once) precisely when the
FIRST event received in the session has type `session.created` and
registration has not yet occurred. -/
theorem registration_exactly_when_first_event_created (trace : List REvent) :
    (runSession trace).regSends ≤ 1 ∧
    ((runSession trace).regSends = 1 ↔
      ∃ e rest, trace = e :: rest ∧ e.type = "session.created") := by
  cases trace with
  | nil =>
      refine ⟨by decide, ?_, ?_⟩
      · intro h; exact absurd h (by decide)
      · rintro ⟨e, rest, h, -⟩; exact List.noConfusion h
  | cons e rest =>
      have hrun : runSession (e :: rest)
          = rest.foldl deliver (deliver initEngine e) := rfl
      by_cases h : e.type = "session.created"
      · have h1 : (deliver initEngine e).regSends = 1 := by
          rw [deliver_regSends]
          simp [initEngine, h]
        have h2 : (deliver initEngine e).functionAdded = true := by
          rw [deliver_functionAdded]
          simp [initEngine, h]
        obtain ⟨g1, -⟩ := foldl_deliver_fATrue rest (deliver initEngine e) h2
        rw [hrun, g1, h1]
        exact ⟨le_refl 1, fun _ => ⟨e, rest, rfl, h⟩, fun _ => rfl⟩
      · have h1 : (deliver initEngine e).regSends = 0 := by
          rw [deliver_regSends]
          simp [initEngine, h]
        have h2 : (deliver initEngine e).events = [] ++ [e] := by
          rw [deliver_events]; rfl
        have g1 := foldl_deliver_lastNe rest (deliver initEngine e) e [] h2 h
        rw [hrun, g1, h1]
        refine ⟨by decide, ?_, ?_⟩
        · intro hx; exact absurd hx (by decide)
        · rintro ⟨e2, rest2, heq, htype⟩
          injection heq with he htl
          rw [he] at h
          exact absurd htype h

/-- C4: if the token request returns a non-success status (`tokenOk = false`)
or a body lacking `client_secret.value`, `startSession` surfaces a credential
error via alert, the state reverts to Disconnected, and no peer connection
object is created. -/
theorem startSession_tokenFailure_reverts (env : StartEnv)
    (h : env.tokenOk = false ∨ env.clientSecret = none) :
    (startSession env).status = ConnStatus.disconnected ∧
    (startSession env).alertMsg.isSome = true ∧
    (startSession env).pcCreated = false := by
  unfold startSession
  rcases h with h | h
  · rw [if_pos h]; exact ⟨rfl, rfl, rfl⟩
  · by_cases ht : env.tokenOk = false
    · rw [if_pos ht]; exact ⟨rfl, rfl, rfl⟩
    · rw [if_neg ht, h]; exact ⟨rfl, rfl, rfl⟩

/-- C4 (witness): the theorem at a concrete failing environment. -/
theorem startSession_tokenFailure_witness :
    (startSession ⟨false, none, true⟩).status = ConnStatus.disconnected ∧
    (startSession ⟨false, none, true⟩).alertMsg.isSome = true ∧
    (startSession ⟨false, none, true⟩).pcCreated = false :=
  startSession_tokenFailure_reverts ⟨false, none, true⟩ (Or.inl rfl)

/-- C5 (counterexample to the claim as stated): with a good token response and
a denied microphone, `startSession` does fail with the microphone-denied
error, but a network call — the `/token` fetch — has already been made before
microphone access was requested, contradicting the claim that the token
request happens only after microphone access is granted. -/
theorem micDenied_after_token_fetch :
    (startSession ⟨true, some "sk", false⟩).alertMsg
      = some "Microphone access denied" ∧
    (startSession ⟨true, some "sk", false⟩).networkCalls = ["GET /token"] ∧
    (startSession ⟨true, some "sk", false⟩).networkCalls ≠ [] := by decide

/-- C5 (amended): if microphone access is denied, `startSession` fails with
the microphone-denied error surfaced, reverts to Disconnected, creates no peer
connection and never reaches the offer/answer exchange — but the token request
has already been made, since the source fetches `/token` before requesting the
microphone. -/
theorem micDenied_failsFast_before_offer (env : StartEnv)
    (h1 : env.tokenOk = true) (h2 : env.clientSecret.isSome = true)
    (h3 : env.micGranted = false) :
    (startSession env).alertMsg = some "Microphone access denied" ∧
    (startSession env).status = ConnStatus.disconnected ∧
    (startSession env).pcCreated = false ∧
    (startSession env).networkCalls = ["GET /token"] := by
  unfold startSession
  rw [if_neg (by simp [h1])]
  rcases hs : env.clientSecret with - | s
  · rw [hs] at h2; simp at h2
  · simp [h3]

/-- C5 (witness): the amended theorem at a concrete environment. -/
theorem micDenied_failsFast_witness :
    (startSession ⟨true, some "sk", false⟩).alertMsg
      = some "Microphone access denied" ∧
    (startSession ⟨true, some "sk", false⟩).status = ConnStatus.disconnected ∧
    (startSession ⟨true, some "sk", false⟩).pcCreated = false ∧
    (startSession ⟨true, some "sk", false⟩).networkCalls = ["GET /token"] :=
  micDenied_failsFast_before_offer ⟨true, some "sk", false⟩ rfl rfl rfl

/-- C6 (counterexample to the claim as stated): stopping a connected session
whose speaking-time interval is running leaves that interval running —
`stopSession` never touches `intervalRef`, so "no pending timers" fails. -/
theorem stop_leaves_interval_running :
    (stopSession ⟨some 0, [], some 0, ConnStatus.connected, true⟩).status
      = ConnStatus.disconnected ∧
    (stopSession ⟨some 0, [], some 0, ConnStatus.connected, true⟩).intervalActive
      = true := by decide

/-- C6 (amended): `stopSession` called in any state is idempotent, is a safe
no-op when no connection exists (it throws nothing and leaves such a state
unchanged), and always leaves the system Disconnected with no live connection
and no data channel reference; the speaking-time interval, however, is left
exactly as it was — it is cleared only by the unmount cleanup, not by stop. -/
theorem stopSession_idempotent_safe (s : SessionState) :
    (stopSession s).status = ConnStatus.disconnected ∧
    (stopSession s).dataChannel = none ∧
    (stopSession s).peerConnection = none ∧
    stopSession (stopSession s) = stopSession s ∧
    (s.dataChannel = none → s.peerConnection = none →
      s.status = ConnStatus.disconnected → stopSession s = s) ∧
    (stopSession s).intervalActive = s.intervalActive := by
  cases s with
  | mk dc cc pc st ia =>
      refine ⟨rfl, rfl, rfl, ?_, ?_, rfl⟩
      · simp [stopSession]
      · intro h1 h2 h3
        simp only at h1 h2 h3
        subst h1; subst h2; subst h3
        simp [stopSession]

/-- C6 (witness): the no-op clause of the theorem at the empty disconnected
state. -/
theorem stopSession_noop_witness :
    stopSession ⟨none, [], none, ConnStatus.disconnected, false⟩
      = (⟨none, [], none, ConnStatus.disconnected, false⟩ : SessionState) :=
  (stopSession_idempotent_safe
    ⟨none, [], none, ConnStatus.disconnected, false⟩).2.2.2.2.1 rfl rfl rfl

/-- C7 (code behavior at the failing input): after `stopSession` runs on a
session whose choreography effect had scheduled a delayed follow-up send, the
component state holds no channel any more, yet firing the pending timeout
attempts the send on the closed channel: the optional-chaining null check
reads the closure-captured channel value, which is still the old, now-closed
channel, so the pending send is not a no-op. -/
theorem pendingSend_after_stop_hits_closed_channel :
    (stopSession preStopState).dataChannel = none ∧
    fireDelayedSend (timeoutCapture preStopState)
      (stopSession preStopState).closedChannels = SendOutcome.sentOnClosed := by
  decide

/-- C8: recording a result under a key and then reading that key returns
exactly the recorded payload stamped with the time of the write call (hence a
timestamp no earlier than the write), and a later record under the same key
makes the store indistinguishable from one where only the later write ever
happened — last-write-wins with no history kept. -/
theorem cache_roundtrip_lastWriteWins (store : CacheStore) (k : String)
    (p1 p2 : String) (t1 t2 : Nat) :
    readLast (recordResult store k p1 t1) k = some (t1, p1) ∧
    recordResult (recordResult store k p1 t1) k p2 t2
      = recordResult store k p2 t2 := by
  constructor
  · simp [readLast, recordResult, localStorageSetItem]
  · funext k2
    by_cases h : k2 = k <;> simp [recordResult, localStorageSetItem, h]

/-- C9: for every upstream outcome short of a thrown error — whatever HTTP
status the upstream session-creation request resolved with — the `/token`
route responds with status 200 and forwards the upstream body, so two
upstream outcomes with different statuses are indistinguishable by the
response status of `/token`. -/
theorem tokenRoute_always_200 (r r2 : UpstreamResponse) :
    tokenRoute (Except.ok r) = Except.ok (200, r.body) ∧
    (tokenRoute (Except.ok r)).toOption.map Prod.fst
      = (tokenRoute (Except.ok r2)).toOption.map Prod.fst := ⟨rfl, rfl⟩

/-- C10: the `/api-env` route returns a body whose `OPENAI_API_KEY` field is
the value of the `OPENAI_API_KEY` environment variable, and the response does
not depend on the request at all — any requester, with or without
credentials, receives the long-lived provider secret. -/
theorem apiEnv_exposes_key (req req2 : HttpRequest) (env : ServerEnv) :
    (apiEnvRoute req env).OPENAI_API_KEY = env.OPENAI_API_KEY ∧
    apiEnvRoute req env = apiEnvRoute req2 env := ⟨rfl, rfl⟩

end AIHealth
